import Mathlib

/-!
# Verification of the MyVote backend identity/credential core

Shallow embedding of the MyVote backend (Slamix6733/myvote-backend) in Lean 4,
covering:

* `src/utils/blockchain.js` (second half): `createHash`, `encrypt`, `decrypt`;
* `src/unnamed/part_011` (`services/qrCodeService.js`): `verifyQRCode`,
  `processVoting`;
* `src/contracts/voterID.sol` (`VoterID`): `registerVoterByAdmin`,
  `verifyVoter`;
* `src/unnamed/part_003` (`controllers/voterController.js`): `registerVoter`,
  `verifyVoter`, `generateVotingQR`.

External runtime primitives that are not part of the repository (node `crypto`
AES-256-CBC, `Buffer` base64, `JSON.parse`, `ethers.keccak256`,
`ethers.isAddress`, the MongoDB driver, the Ethereum JSON-RPC provider) are
modelled at their interface: as explicit function parameters, or as small
structures bundling the function with the algebraic laws the runtime
guarantees.  Everything else is translated clause by clause from the
JavaScript / Solidity source.
-/

namespace MyVote

/-! ## JavaScript values and the `JSON.parse` runtime model

`decrypt` in `src/utils/blockchain.js` attempts `JSON.parse` on the decrypted
text and returns the parsed value when it parses, the raw string otherwise,
and the empty object `{}` from its `catch` block.  We only ever need to
distinguish strings, numbers and the empty object. -/

/-- The subset of JavaScript values produced by `decrypt`
(`src/utils/blockchain.js:381-423`): a string, a JSON number, or the empty
object `{}` returned by the `catch` handler. -/
inductive JSValue where
  | str : String → JSValue
  | num : Nat → JSValue
  | emptyObj : JSValue
  deriving DecidableEq, Repr

/-- Characters that can begin a syntactically valid JSON document
(digit, `-`, `"`, `[`, object brace, `t`/`f`/`n` for `true`/`false`/`null`,
or leading whitespace).  `JSON.parse` in the JS runtime throws on any input
whose first character is not of this shape. -/
def jsonStartChar (c : Char) : Bool :=
  c.isDigit || c == '-' || c == '"' || c == '[' || c == Char.ofNat 123 ||
  c == 't' || c == 'f' || c == 'n' || c == ' ' || c == '\t' || c == '\n' || c == '\r'

/-- A nonempty list of digit characters with no forbidden leading zero:
exactly the strings `JSON.parse` reads as a canonical natural-number literal. -/
def isCanonicalNumeral (l : List Char) : Bool :=
  match l with
  | [] => false
  | c :: _ => c.isDigit && l.all Char.isDigit && (l = ['0'] || c ≠ '0')

/-- Natural number denoted by a digit string. -/
def natOfDigits (l : List Char) : Nat :=
  l.foldl (fun n c => 10 * n + (c.toNat - 48)) 0

/-- Interface model of the JavaScript `JSON.parse` runtime function, as used
by `decrypt`.  `parse` returns `some v` when `JSON.parse` succeeds with value
`v` and `none` when it throws.  The two laws are facts about the real runtime:
a canonical natural-number literal parses to that number, and a string whose
first character cannot begin a JSON document throws. -/
structure JsonRuntime where
  parse : String → Option JSValue
  parse_numeral : ∀ s : String, isCanonicalNumeral s.data = true →
    parse s = some (JSValue.num (natOfDigits s.data))
  parse_notjson : ∀ s : String, (∀ c ∈ s.data.head?, jsonStartChar c = false) →
    s.data ≠ [] → parse s = none

/-- Concrete `JsonRuntime` instance covering the numeral fragment, used to
evaluate theorems on concrete inputs. -/
def jsonRuntime0 : JsonRuntime where
  parse s :=
    if isCanonicalNumeral s.data then some (JSValue.num (natOfDigits s.data))
    else none
  parse_numeral := by
    intro s h
    simp [h]
  parse_notjson := by
    intro s h hne
    have hnum : isCanonicalNumeral s.data = false := by
      cases hs : s.data with
      | nil => exact absurd hs hne
      | cons c _rest =>
        have hc : jsonStartChar c = false := by
          have := h c
          simp [hs] at this
          exact this
        have hcd : c.isDigit = false := by
          by_contra hd
          simp only [Bool.not_eq_false] at hd
          simp [jsonStartChar, hd] at hc
        simp [isCanonicalNumeral, hcd]
    simp [hnum]

/-! ## Base64 runtime model

`encrypt`'s fallback path stores `Buffer.from(data).toString('base64')` and
`decrypt`'s fallback path reads it back with `Buffer.from(-, 'base64')
.toString('utf8')`.  Only the round-trip law of this external encoding is
used. -/

/-- Interface model of node's base64 encoding (`Buffer.from(s).toString(
'base64')` / `Buffer.from(s, 'base64').toString('utf8')`), with the runtime's
round-trip guarantee. -/
structure Base64Runtime where
  enc : String → String
  dec : String → String
  dec_enc : ∀ s, dec (enc s) = s

/-- Concrete `Base64Runtime` instance (the identity encoding satisfies the
interface) used to evaluate theorems on concrete inputs. -/
def base64Id : Base64Runtime where
  enc s := s
  dec s := s
  dec_enc _ := rfl

/-! ## AES-256-CBC runtime model

`crypto.createCipheriv('aes-256-cbc', key, iv)` lives in the node runtime,
not in this repository.  It is modelled as a keyed pair `enc`/`dec` where
`none` stands for a thrown exception (`createCipheriv` rejecting the key,
`decipher.final` rejecting corrupted padding), with the runtime's guarantee
that decrypting an honestly produced ciphertext with the same key and IV
returns the plaintext. -/

/-- Interface model of the node AES-256-CBC cipher used by
`encrypt`/`decrypt`: `enc key iv plaintext` is `some ciphertext` on success
and `none` when the cipher path throws; `dec key iv ciphertext` likewise.
`dec_enc` is the runtime's correctness law. -/
structure CipherRuntime where
  enc : String → String → String → Option String
  dec : String → String → String → Option String
  dec_enc : ∀ k iv s ct, enc k iv s = some ct → dec k iv ct = some s

/-- Concrete cipher instance: prepends a marker character, and decryption
fails (`none`, i.e. the runtime throws) on any string lacking the marker.
Used to evaluate theorems on concrete inputs, including tampered
ciphertexts. -/
def cipherMark : CipherRuntime where
  enc _ _ s := some ⟨'E' :: s.data⟩
  dec _ _ s :=
    match s.data with
    | 'E' :: rest => some ⟨rest⟩
    | _ => none
  dec_enc := by
    intro k iv s ct h
    simp only [Option.some.injEq] at h
    subst h
    rfl

/-- Concrete cipher instance whose encryption path always throws, used to
exercise `encrypt`'s fallback branch on concrete inputs. -/
def cipherBroken : CipherRuntime where
  enc _ _ _ := none
  dec _ _ _ := none
  dec_enc := by intro k iv s ct h; cases h

/-! ## `src/utils/blockchain.js` — `createHash` (lines 300-333) -/

/-- The three shapes of the JavaScript argument `data` received by
`createHash`: `null`/`undefined`, a string, or any other value together with
its `String(data)` coercion. -/
inductive JSInput where
  | nullish : JSInput
  | str : String → JSInput
  | other : String → JSInput
  deriving DecidableEq, Repr

/-- UTF-8 byte encoding of a string (`ethers.toUtf8Bytes`). -/
def toUtf8Bytes (s : String) : List Nat :=
  (String.toUTF8 s).toList.map UInt8.toNat

/-- The JavaScript test `s.startsWith('0x')`, on the character data. -/
def startsWith0x (s : String) : Bool :=
  match s.data with
  | '0' :: 'x' :: _ => true
  | _ => false

/-- The JavaScript `s.toLowerCase()`, on the character data. -/
def toLowerCase (s : String) : String :=
  ⟨s.data.map Char.toLower⟩

/-- The format check at `src/utils/blockchain.js:324`: the produced hash must
be a `0x`-prefixed 66-character string
(`hash.startsWith('0x') && hash.length === 66`). -/
def isValidDigest (h : String) : Bool :=
  startsWith0x h && h.length == 66

/-- `createHash` from `src/utils/blockchain.js:300-333`.  The external
`ethers.keccak256` is the parameter `keccak : List Nat → String` applied to
the UTF-8 bytes of the (possibly coerced) input.  Source control flow:
`null`/`undefined` throws; any non-string is coerced via `String(data)`;
the digest is returned if it passes the `0x`/length-66 format check,
otherwise the function throws.  `Except.error` models a thrown exception. -/
def createHash (keccak : List Nat → String) (data : JSInput) : Except String String :=
  match data with
  | JSInput.nullish => Except.error "Cannot hash null or undefined data"
  | JSInput.str s =>
      let h := keccak (toUtf8Bytes s)
      if isValidDigest h then Except.ok h
      else Except.error "Invalid hash format"
  | JSInput.other coerced =>
      let h := keccak (toUtf8Bytes coerced)
      if isValidDigest h then Except.ok h
      else Except.error "Invalid hash format"

/-- A fixed well-formed digest value used to instantiate the abstract
`keccak` parameter on concrete inputs. -/
def digest0 : String := ⟨'0' :: 'x' :: List.replicate 64 '0'⟩

/-! ## `src/utils/blockchain.js` — `encrypt` (336-378) and `decrypt` (381-423) -/

/-- The `{iv, encryptedData}` record produced by `encrypt` and consumed by
`decrypt`. -/
structure EncryptedObj where
  iv : String
  encryptedData : String
  deriving DecidableEq, Repr

/-- The key normalisation at `src/utils/blockchain.js:349`:
`key.padEnd(32, '0').substring(0, 32)`. -/
def padKey (k : String) : String :=
  ⟨(k.data ++ List.replicate (32 - k.data.length) '0').take 32⟩

/-- `encrypt` from `src/utils/blockchain.js:336-378`, for string inputs
(non-strings are `JSON.stringify`ed by the source before this point; all
call sites in the claims pass strings).  The fresh random IV is the explicit
parameter `iv` (generated externally by `crypto.randomBytes(16)`).  If the
AES-256-CBC path throws (`C.enc … = none`), the `catch` block returns the
fallback record `{iv: "fallback", encryptedData: base64(data)}`. -/
def encrypt (C : CipherRuntime) (B : Base64Runtime) (envKey iv data : String) :
    EncryptedObj :=
  match C.enc (padKey envKey) iv data with
  | some ct => { iv := iv, encryptedData := ct }
  | none => { iv := "fallback", encryptedData := B.enc data }

/-- `decrypt` from `src/utils/blockchain.js:381-423`.  If `iv` is the
literal string `"fallback"`, the base64 payload is decoded and a `JSON.parse`
is attempted (returning the raw string when parsing throws).  Otherwise the
AES path runs: on success the plaintext goes through the same `JSON.parse`
attempt; if anything throws, the `catch` block returns the empty object
`{}`. -/
def decrypt (C : CipherRuntime) (B : Base64Runtime) (J : JsonRuntime)
    (envKey : String) (e : EncryptedObj) : JSValue :=
  if e.iv = "fallback" then
    let result := B.dec e.encryptedData
    match J.parse result with
    | some v => v
    | none => JSValue.str result
  else
    match C.dec (padKey envKey) e.iv e.encryptedData with
    | none => JSValue.emptyObj
    | some pt =>
        match J.parse pt with
        | some v => v
        | none => JSValue.str pt

/-! ## `src/unnamed/part_011` (`services/qrCodeService.js`) — QR credentials

Times are naturals (milliseconds since epoch), mirroring JavaScript `Date`
comparisons. -/

/-- A parsed QR payload, the JSON object produced by
`generateQRCodeForVoter` (`part_011:33-41`) and consumed by `verifyQRCode`.
`expiresAt` is the timestamp denoted by the ISO string in the JSON. -/
structure QRData where
  nameHash : String
  aadharHash : String
  txHash : String
  voterAddress : String
  verificationDate : Nat
  expiresAt : Nat
  systemId : String
  deriving DecidableEq, Repr

/-- Result of `verifyQRCode`: `invalid msg` is `{valid: false, error: msg}`,
`valid` is `{valid: true, data: qrData}`. -/
inductive VerifyResult where
  | invalid : String → VerifyResult
  | valid : VerifyResult
  deriving DecidableEq, Repr

/-- The required-fields filter at `part_011:151-152`: a field is "missing"
when it is absent or falsy (for the string fields, the empty string).
`expiresAt` and the timestamps are always-present naturals in this model. -/
def requiredMissing (q : QRData) : Bool :=
  q.nameHash.isEmpty || q.aadharHash.isEmpty || q.txHash.isEmpty ||
  q.voterAddress.isEmpty || q.systemId.isEmpty

/-- `QRCodeService.verifyQRCode` from `part_011:147-190`, on an
already-parsed payload (the `JSON.parse` failure branch returns
`invalid "Invalid QR code format"` before this logic and is outside the
claims).  Source order: required fields, then `systemId !==
'MYVOTE_SYSTEM_V1'`, then `now > expiresAt` — note the strict `>`:
a payload checked exactly at `expiresAt` is NOT treated as expired. -/
def verifyQRCode (now : Nat) (q : QRData) : VerifyResult :=
  if requiredMissing q then VerifyResult.invalid "Missing required fields"
  else if q.systemId ≠ "MYVOTE_SYSTEM_V1" then VerifyResult.invalid "Invalid system ID"
  else if now > q.expiresAt then VerifyResult.invalid "QR code has expired"
  else VerifyResult.valid

/-- The `qrCode` subdocument of the Mongoose `Voter` schema
(`src/models/Voter.js:158-170`).  `isActive` defaults to `true`. -/
structure StoredQR where
  nameHash : String
  aadharHash : String
  txHash : String
  generatedAt : Nat
  expiresAt : Option Nat
  isActive : Bool
  deriving DecidableEq, Repr

/-- The ledger-mirror subdocument `blockchain` of the `Voter` schema
(`src/models/Voter.js:120-127`). -/
structure BlockchainSub where
  nameHash : String
  aadharHash : String
  txHash : Option String
  registrationTimestamp : Nat
  deriving DecidableEq, Repr

/-- A MongoDB `Voter` document (`src/models/Voter.js:102-179`), restricted to
the fields the verified operations read or write.  `encryptedData` (opaque to
every claim) and the profile fields are omitted. -/
structure VoterRec where
  blockchainAddress : String
  rawName : String
  rawAadhar : String
  blockchain : Option BlockchainSub
  isVerified : Bool
  isVoted : Bool
  votingDate : Option Nat
  qrCode : Option StoredQR
  verificationDate : Option Nat
  verificationNotes : String
  verifiedBy : Option String
  deriving DecidableEq, Repr

/-- `Voter.findOne({blockchainAddress, isVerified: true})` from
`part_011:211-214`. -/
def findVerifiedVoter (db : List VoterRec) (addr : String) : Option VoterRec :=
  db.find? (fun v => v.blockchainAddress == addr && v.isVerified)

/-- `voter.save()`: persist the mutated document, keyed by the unique
`blockchainAddress` index.  Mongoose `save()` writes the changed fields
unconditionally (no compare-and-swap on scalar fields). -/
def saveVoter (db : List VoterRec) (addr : String) (f : VoterRec → VoterRec) :
    List VoterRec :=
  db.map (fun v => if v.blockchainAddress == addr then f v else v)

/-- Outcome of `processVoting`: `failure msg` is `{success: false, error:
msg}`, `success addr` is the success record carrying `voterAddress`. -/
inductive VoteOutcome where
  | failure : String → VoteOutcome
  | success : String → VoteOutcome
  deriving DecidableEq, Repr

/-- The mutation applied to the voter document at `part_011:239-241`:
`isVoted = true`, `votingDate = new Date()`, `qrCode.isActive = false`. -/
def markVoted (now : Nat) (v : VoterRec) : VoterRec :=
  { v with isVoted := true, votingDate := some now,
           qrCode := v.qrCode.map (fun s => { s with isActive := false }) }

/-- `QRCodeService.processVoting` from `part_011:195-259`: verify the QR
payload, look up the voter by address (must be verified), reject if
`voter.isVoted`, reject if `!voter.qrCode?.isActive`, then mutate and save.
Returns the HTTP-visible outcome together with the post-state of the
store. -/
def processVoting (now : Nat) (db : List VoterRec) (q : QRData) :
    VoteOutcome × List VoterRec :=
  match verifyQRCode now q with
  | VerifyResult.invalid e => (VoteOutcome.failure e, db)
  | VerifyResult.valid =>
    match findVerifiedVoter db q.voterAddress with
    | none => (VoteOutcome.failure "Voter not found or not verified", db)
    | some voter =>
      if voter.isVoted then (VoteOutcome.failure "Voter has already voted", db)
      else if !((voter.qrCode.map StoredQR.isActive).getD false) then
        (VoteOutcome.failure "QR code is no longer active", db)
      else
        (VoteOutcome.success voter.blockchainAddress,
         saveVoter db voter.blockchainAddress (markVoted now))

/-! ### Interleaving model for concurrent redemption

`processVoting` performs all its checks on the in-memory document fetched by
`findOne` and only afterwards persists with `save()`.  Splitting it at that
boundary gives the read phase and the write phase; an interleaving of two
requests is then expressed by running both read phases against the same
snapshot before either write phase commits. -/

/-- Decision of the read phase of `processVoting` (everything before
`voter.save()`): either a failure response, or "checks passed, commit against
the voter at this address". -/
inductive Phase1 where
  | reject : String → Phase1
  | proceed : String → Phase1
  deriving DecidableEq, Repr

/-- The read phase of `processVoting`: QR verification, `findOne`, the
`isVoted` read and the `qrCode.isActive` read, performed against the store
snapshot `db`. -/
def redeemReadPhase (now : Nat) (db : List VoterRec) (q : QRData) : Phase1 :=
  match verifyQRCode now q with
  | VerifyResult.invalid e => Phase1.reject e
  | VerifyResult.valid =>
    match findVerifiedVoter db q.voterAddress with
    | none => Phase1.reject "Voter not found or not verified"
    | some voter =>
      if voter.isVoted then Phase1.reject "Voter has already voted"
      else if !((voter.qrCode.map StoredQR.isActive).getD false) then
        Phase1.reject "QR code is no longer active"
      else Phase1.proceed voter.blockchainAddress

/-- The write phase of `processVoting`: the unconditional `voter.save()` of
the mutated document. -/
def redeemWritePhase (now : Nat) (db : List VoterRec) (addr : String) :
    List VoterRec :=
  saveVoter db addr (markVoted now)

/-- One whole request assembled from its two phases against a given read
snapshot. -/
def redeemFromPhase (now : Nat) (db : List VoterRec) (p : Phase1) :
    VoteOutcome × List VoterRec :=
  match p with
  | Phase1.reject e => (VoteOutcome.failure e, db)
  | Phase1.proceed addr => (VoteOutcome.success addr, redeemWritePhase now db addr)

/-- Two concurrent `processVoting` requests with the same payload under the
schedule read₁ · read₂ · write₁ · write₂: both read phases observe the
initial snapshot, then the commits apply in order.  Returns both outcomes and
the final store. -/
def twoInterleavedRedeems (now : Nat) (db : List VoterRec) (q : QRData) :
    VoteOutcome × VoteOutcome × List VoterRec :=
  let p1 := redeemReadPhase now db q
  let p2 := redeemReadPhase now db q
  let (o1, db1) := redeemFromPhase now db p1
  let (o2, db2) := redeemFromPhase now db1 p2
  (o1, o2, db2)

/-! ## `src/contracts/voterID.sol` — the `VoterID` contract (bytes32 variant,
lines 4-142)

`bytes32` values and addresses are modelled as strings; `bytes32(0)` is the
distinguished constant `zeroHash`, `address(0)` is `zeroAddr`. -/

/-- The on-chain `Voter` struct (`voterID.sol:5-11`).  A mapping entry that
was never written has `registrationTimestamp = 0` (the contract's
"unregistered" test). -/
structure CVoter where
  nameHash : String
  aadharHash : String
  isVerified : Bool
  registrationTimestamp : Nat
  lastVerifiedTimestamp : Nat
  deriving DecidableEq, Repr

/-- The zero value of the `Voter` struct, returned by the `voters` mapping
for any address never written. -/
def CVoter.zero : CVoter :=
  { nameHash := "", aadharHash := "", isVerified := false,
    registrationTimestamp := 0, lastVerifiedTimestamp := 0 }

/-- The custom errors of `VoterID` (`voterID.sol:14-21`). -/
inductive CError where
  | RegistrationClosed
  | AlreadyRegistered
  | AadharAlreadyRegistered
  | EmptyHash
  | VoterNotRegistered
  | VoterAlreadyVerified
  | InvalidAddress
  | NotAdmin
  deriving DecidableEq, Repr

/-- Contract storage (`voterID.sol:23-28`): the `voters` mapping (as an
association list with zero default), the private `usedAadharHashes` set,
`admin`, `voterCount` and `registrationOpen`. -/
structure ContractState where
  voters : List (String × CVoter)
  usedAadharHashes : List String
  admin : String
  voterCount : Nat
  registrationOpen : Bool
  deriving DecidableEq, Repr

/-- Read of the `voters` mapping with the Solidity zero-value default. -/
def ContractState.getVoter (st : ContractState) (addr : String) : CVoter :=
  ((st.voters.find? (fun p => p.1 == addr)).map Prod.snd).getD CVoter.zero

/-- Write of the `voters` mapping. -/
def ContractState.setVoter (st : ContractState) (addr : String) (v : CVoter) :
    ContractState :=
  { st with voters := (addr, v) :: st.voters.filter (fun p => p.1 != addr) }

/-- The `bytes32(0)` constant compared against by `isEmptyBytes32`
(`voterID.sol:46-48`). -/
def zeroHash : String := ⟨'0' :: 'x' :: List.replicate 64 '0'⟩

/-- The `address(0)` constant. -/
def zeroAddr : String := "0x0000000000000000000000000000000000000000"

/-- `VoterID.registerVoterByAdmin` (`voterID.sol:76-100`): `onlyAdmin`
modifier, then the guard cascade in source order, then the state writes.
`Except.error` models `revert`. -/
def registerVoterByAdmin (sender : String) (blockTimestamp : Nat)
    (st : ContractState) (voterAddress nameHash aadharHash : String) :
    Except CError ContractState :=
  if sender ≠ st.admin then Except.error CError.NotAdmin
  else if ¬st.registrationOpen then Except.error CError.RegistrationClosed
  else if (st.getVoter voterAddress).registrationTimestamp ≠ 0 then
    Except.error CError.AlreadyRegistered
  else if st.usedAadharHashes.contains aadharHash then
    Except.error CError.AadharAlreadyRegistered
  else if nameHash = zeroHash then Except.error CError.EmptyHash
  else if aadharHash = zeroHash then Except.error CError.EmptyHash
  else if voterAddress = zeroAddr then Except.error CError.InvalidAddress
  else
    Except.ok
      { (st.setVoter voterAddress
          { nameHash := nameHash, aadharHash := aadharHash, isVerified := false,
            registrationTimestamp := blockTimestamp, lastVerifiedTimestamp := 0 }) with
        usedAadharHashes := aadharHash :: st.usedAadharHashes,
        voterCount := st.voterCount + 1 }

/-- `VoterID.verifyVoter` (`voterID.sol:102-110`): `onlyAdmin`, revert
`VoterNotRegistered` on an unwritten entry, revert `VoterAlreadyVerified`
when `isVerified` already holds, otherwise set the flag and the
verification timestamp. -/
def contractVerifyVoter (sender : String) (blockTimestamp : Nat)
    (st : ContractState) (voter : String) : Except CError ContractState :=
  if sender ≠ st.admin then Except.error CError.NotAdmin
  else
    let v := st.getVoter voter
    if v.registrationTimestamp = 0 then Except.error CError.VoterNotRegistered
    else if v.isVerified then Except.error CError.VoterAlreadyVerified
    else
      Except.ok (st.setVoter voter
        { v with isVerified := true, lastVerifiedTimestamp := blockTimestamp })

/-! ## `src/unnamed/part_003` (`controllers/voterController.js`) -/

/-- HTTP-visible outcome of the `registerVoter` controller
(`part_003:27-179`).  `created b` is the 201 response whose `onBlockchain`
field is `b`; `alreadyRegistered` is the 400 response
`"Voter already registered"`; `serverError` covers the 500 paths (missing
`ADMIN_ADDRESS`, thrown hash/encryption/database errors). -/
inductive RegisterResp where
  | serverError
  | missingFields : String → RegisterResp
  | invalidEthAddress
  | alreadyRegistered
  | created : Bool → RegisterResp
  deriving DecidableEq, Repr

/-- The `registerVoter` controller (`part_003:27-179`).
Parameters standing for the environment and external collaborators:
`envAdminSet` — whether `ADMIN_ADDRESS` is configured; `keccak` — the
external hash (through `createBlockchainHashes` → `createHash`);
`ledgerOutcome` — the result of `registerVoterOnBlockchain`
(`Except.error` = the call threw); `now` — `Date.now()`.
Source control flow: config check, required-field checks, the Ethereum
address format check (`0x` prefix, length 42), hash creation, the
duplicate lookup `Voter.findOne({$or: [{blockchainAddress}, {rawData
.aadharNumber}]})`, the blockchain attempt whose failure is caught and
ignored (lines 104-111), then the MongoDB record whose `blockchain`
subdocument is the ledger data when the ledger call returned and `null`
otherwise (lines 140-145), and the 201 response with
`onBlockchain: !!blockchainResult` (line 159). -/
def registerVoter (envAdminSet : Bool) (keccak : List Nat → String)
    (ledgerOutcome : Except String String) (now : Nat)
    (db : List VoterRec) (name aadhar addr : String) :
    RegisterResp × List VoterRec :=
  if ¬envAdminSet then (RegisterResp.serverError, db)
  else if name.isEmpty then (RegisterResp.missingFields "name is required", db)
  else if aadhar.isEmpty then (RegisterResp.missingFields "aadharNumber is required", db)
  else if addr.isEmpty then (RegisterResp.missingFields "address is required", db)
  else if ¬(startsWith0x addr ∧ addr.length = 42) then
    (RegisterResp.invalidEthAddress, db)
  else
    match createHash keccak (JSInput.str name), createHash keccak (JSInput.str aadhar) with
    | Except.ok nameHash, Except.ok aadharHash =>
      match db.find? (fun v => v.blockchainAddress == addr || v.rawAadhar == aadhar) with
      | some _ => (RegisterResp.alreadyRegistered, db)
      | none =>
        let blockchainResult := ledgerOutcome.toOption
        let voter : VoterRec :=
          { blockchainAddress := addr, rawName := name, rawAadhar := aadhar,
            blockchain := blockchainResult.map (fun tx =>
              { nameHash := nameHash, aadharHash := aadharHash,
                txHash := some tx, registrationTimestamp := now }),
            isVerified := false, isVoted := false, votingDate := none,
            qrCode := none, verificationDate := none, verificationNotes := "",
            verifiedBy := none }
        (RegisterResp.created blockchainResult.isSome, db ++ [voter])
    | _, _ => (RegisterResp.serverError, db)

/-- Glue between the registrar and the contract model: the outcome the
controller observes from `registerVoterOnBlockchain` when the ledger call
executes `registerVoterByAdmin` on chain state `st` (a revert surfaces to
the controller as a thrown error). -/
def ledgerRegisterOutcome (sender : String) (ts : Nat) (st : ContractState)
    (voterAddr nameHash aadharHash : String) : Except String String :=
  match registerVoterByAdmin sender ts st voterAddr nameHash aadharHash with
  | Except.ok _ => Except.ok "0xledgertx"
  | Except.error _ => Except.error "execution reverted"

/-- HTTP-visible outcome of the `verifyVoter` controller
(`part_003:182-299`). -/
inductive VerifyResp where
  | missingParams
  | invalidAddressFormat
  | unauthorized
  | voterNotFound
  | verified
  deriving DecidableEq, Repr

/-- The `verifyVoter` controller (`part_003:182-299`).  `isAddr` models
`ethers.isAddress`; `envAdmin` is `ADMIN_ADDRESS`; `chainOutcome` is the
result of `verifyVoterOnBlockchain` — note that BOTH its success and its
failure are swallowed by the inner try/catch at lines 201-210, so it never
influences the continuation (which is why it is an unused parameter here).
The QR step at lines 220-240 calls `generateQRCodeForVoter` with a
`voterData` record carrying neither a `blockchain` object nor top-level
`nameHash`/`aadharHash` fields, so the service throws
`"Missing nameHash or aadharHash"` (`part_011:24-27`) and the catch at
lines 237-240 continues without touching `qrCode`.  The controller then
unconditionally sets `isVerified`, `verificationDate`, `verificationNotes`
and `verifiedBy` (lines 242-247) — it never reads the prior
`isVerified`, so an already-verified voter is re-verified silently; the
`"Voter already verified"` → 409 handler at lines 293-295 is unreachable
from the swallowed blockchain error. -/
def verifyVoterController (isAddr : String → Bool) (envAdmin : String)
    (now : Nat) (db : List VoterRec)
    (chainOutcome : Except String String)
    (adminAddress voterAddress notes : String) :
    VerifyResp × List VoterRec :=
  if adminAddress.isEmpty || voterAddress.isEmpty then (VerifyResp.missingParams, db)
  else if ¬(isAddr adminAddress ∧ isAddr voterAddress) then
    (VerifyResp.invalidAddressFormat, db)
  else if toLowerCase adminAddress ≠ toLowerCase envAdmin then (VerifyResp.unauthorized, db)
  else
    match db.find? (fun v => v.blockchainAddress == voterAddress) with
    | none => (VerifyResp.voterNotFound, db)
    | some _ =>
      (VerifyResp.verified,
       saveVoter db voterAddress (fun v =>
         { v with isVerified := true, verificationDate := some now,
                  verificationNotes := notes, verifiedBy := some adminAddress }))

/-- Glue for the verification path: the outcome the controller observes from
`verifyVoterOnBlockchain` when the ledger call executes `verifyVoter` on
chain state `st`. -/
def ledgerVerifyOutcome (sender : String) (ts : Nat) (st : ContractState)
    (voterAddr : String) : Except String String :=
  match contractVerifyVoter sender ts st voterAddr with
  | Except.ok _ => Except.ok "0xverifytx"
  | Except.error _ => Except.error "execution reverted"

/-- HTTP-visible outcome of the `generateVotingQR` controller
(`part_003:707-764`).  `generated t` is the 200 response carrying
`expiresAt = t`. -/
inductive GenQRResp where
  | voterNotFound
  | notVerified
  | alreadyVoted
  | serverError
  | generated : Nat → GenQRResp
  deriving DecidableEq, Repr

/-- The `generateVotingQR` controller (`part_003:707-764`), inlining the
successful path of `generateQRCodeForVoter` (`part_011:9-92`): the voter is
looked up by aadhar; the only preconditions checked are existence,
`isVerified` and `!isVoted` — no check that an earlier credential is still
live.  The service reads the hashes from `voter.blockchain` (throwing when
they are absent, 500 via the outer catch, like a failed Firebase upload,
modelled by `uploadOk = false`), computes
`expiresAt = now + expirationMinutes*60*1000` (`part_011:29-30`), and the
controller then overwrites `voter.qrCode` with the fresh credential,
`isActive: true` (lines 736-748). -/
def generateVotingQR (uploadOk : Bool) (now expirationMinutes : Nat)
    (db : List VoterRec) (aadhar : String) : GenQRResp × List VoterRec :=
  match db.find? (fun v => v.rawAadhar == aadhar) with
  | none => (GenQRResp.voterNotFound, db)
  | some voter =>
    if ¬voter.isVerified then (GenQRResp.notVerified, db)
    else if voter.isVoted then (GenQRResp.alreadyVoted, db)
    else
      match voter.blockchain with
      | none => (GenQRResp.serverError, db)
      | some bc =>
        if bc.nameHash.isEmpty || bc.aadharHash.isEmpty then (GenQRResp.serverError, db)
        else if ¬uploadOk then (GenQRResp.serverError, db)
        else
          let expiresAt := now + expirationMinutes * 60 * 1000
          (GenQRResp.generated expiresAt,
           saveVoter db voter.blockchainAddress (fun v =>
             { v with
               qrCode := some ({ nameHash := bc.nameHash,
                                 aadharHash := bc.aadharHash,
                                 txHash := bc.txHash.getD "voting_qr",
                                 generatedAt := now,
                                 expiresAt := some expiresAt,
                                 isActive := true } : StoredQR) }))

/-! ## Concrete fixtures used to evaluate the theorems -/

/-- A valid 42-character Ethereum address literal. -/
def addr42 : String := "0x1111111111111111111111111111111111111111"

/-- A registered, admin-verified, not-yet-voted voter holding an active
credential that expires at time 1000. -/
def voter0 : VoterRec :=
  { blockchainAddress := "0xabc", rawName := "Asha",
    rawAadhar := "111122223333",
    blockchain := some { nameHash := "0xn", aadharHash := "0xa",
                         txHash := some "0xt", registrationTimestamp := 1 },
    isVerified := true, isVoted := false, votingDate := none,
    qrCode := some { nameHash := "0xn", aadharHash := "0xa", txHash := "0xt",
                     generatedAt := 5, expiresAt := some 1000, isActive := true },
    verificationDate := some 6, verificationNotes := "", verifiedBy := none }

/-- The QR payload matching `voter0`, expiring at time 1000. -/
def qr0 : QRData :=
  { nameHash := "0xn", aadharHash := "0xa", txHash := "0xt",
    voterAddress := "0xabc", verificationDate := 5, expiresAt := 1000,
    systemId := "MYVOTE_SYSTEM_V1" }

/-- A payload assembled from public constants alone: its hashes match no
issued credential and no issuer key was involved in producing it. -/
def qrForged : QRData :=
  { nameHash := "h1", aadharHash := "h2", txHash := "t",
    voterAddress := "0xabc", verificationDate := 0, expiresAt := 500,
    systemId := "MYVOTE_SYSTEM_V1" }

/-- Chain state in which `0xabc` is registered (aadhar hash `0xa`) and
already verified, with admin `0xadmin`. -/
def chainSt0 : ContractState :=
  { voters := [("0xabc", { nameHash := "0xn", aadharHash := "0xa",
                           isVerified := true, registrationTimestamp := 1,
                           lastVerifiedTimestamp := 2 })],
    usedAadharHashes := ["0xa"], admin := "0xadmin", voterCount := 1,
    registrationOpen := true }

/-! ## C6 — PII vault round trip and tamper behaviour

Claim: `open(seal(plaintext)) == plaintext` for every plaintext, and `open`
on tampered ciphertext or wrong key fails with `DecryptionFailed`, never
silently returning corrupted or substitute data.

Both halves fail on the code.  `decrypt` pipes the decrypted text through
`JSON.parse` (`src/utils/blockchain.js:413-418`), so a plaintext that is
itself a JSON literal comes back as the parsed value, not the identical
string; and the `catch` block at lines 419-422 returns the empty object
`{}` — substitute data, not a `DecryptionFailed` failure. -/

/-- **C6, counterexample.**  With the AES interface instantiated by a
correct cipher: `open(seal("123"))` is the JSON number `123`, not the
plaintext string `"123"`; and `open` on a ciphertext the cipher rejects
(the tampered case) returns the empty object `{}` instead of failing. -/
theorem C6_counterexample :
    decrypt cipherMark base64Id jsonRuntime0 "key"
        (encrypt cipherMark base64Id "key" "00" "123") = JSValue.num 123 ∧
    JSValue.num 123 ≠ JSValue.str "123" ∧
    decrypt cipherMark base64Id jsonRuntime0 "key"
        { iv := "00", encryptedData := "tampered" } = JSValue.emptyObj := by
  refine ⟨by decide, by decide, by decide⟩

/-- **C6, amended.**  For every cipher/base64/JSON runtime satisfying the
interface laws: the round trip `open(seal(pt)) = pt` holds whenever the AES
path succeeds and the plaintext is not itself parseable JSON (otherwise the
parsed value is returned); and whenever decryption of a ciphertext throws
(tampered input or wrong key), `open` returns the empty object `{}` — it
never surfaces a `DecryptionFailed` error. -/
theorem C6_amended (C : CipherRuntime) (B : Base64Runtime) (J : JsonRuntime)
    (k iv pt ct : String) (e : EncryptedObj)
    (henc : C.enc (padKey k) iv pt = some ct)
    (hiv0 : iv ≠ "fallback")
    (hjson : J.parse pt = none)
    (hiv : e.iv ≠ "fallback")
    (hdec : C.dec (padKey k) e.iv e.encryptedData = none) :
    decrypt C B J k (encrypt C B k iv pt) = JSValue.str pt ∧
    decrypt C B J k e = JSValue.emptyObj := by
  constructor
  · unfold encrypt
    rw [henc]
    simp [decrypt, hiv0, C.dec_enc (padKey k) iv pt ct henc, hjson]
  · simp [decrypt, hiv, hdec]

/-- **C6, witness** for the amended theorem, at the marker cipher, identity
base64, numeral JSON runtime, plaintext `"hello"` and a tampered
ciphertext. -/
theorem C6_amended_witness :
    decrypt cipherMark base64Id jsonRuntime0 "key"
        (encrypt cipherMark base64Id "key" "00" "hello") = JSValue.str "hello" ∧
    decrypt cipherMark base64Id jsonRuntime0 "key"
        { iv := "00", encryptedData := "bad" } = JSValue.emptyObj :=
  C6_amended cipherMark base64Id jsonRuntime0 "key" "00" "hello" "Ehello"
    { iv := "00", encryptedData := "bad" }
    (by decide) (by decide) (by decide) (by decide) (by decide)

/-! ## C9 — `createHash` input validation

Claim: `createHash` hashes every valid string with Keccak-256 over its UTF-8
encoding and fails with `InvalidInput` whenever the field is the empty
string or not a string.

The rejection half fails on the code: `createHash`
(`src/utils/blockchain.js:300-333`) throws only on `null`/`undefined`; the
empty string is hashed like any other, and a non-string is coerced with
`String(data)` and hashed rather than rejected. -/

/-- The fixed digest stand-in passes the format check of
`src/utils/blockchain.js:324`. -/
theorem digest0_valid : isValidDigest digest0 = true := by decide

/-- **C9, counterexample.**  With the external keccak fixed to a well-formed
digest: `createHash("")` succeeds (no `InvalidInput`), and `createHash` of a
non-string (the number `42`, coerced to `"42"`) also succeeds. -/
theorem C9_counterexample :
    createHash (fun _ => digest0) (JSInput.str "") = Except.ok digest0 ∧
    createHash (fun _ => digest0) (JSInput.other "42") = Except.ok digest0 := by
  refine ⟨?_, ?_⟩ <;> simp [createHash, digest0_valid]

/-- **C9, amended.**  Provided the external keccak returns well-formed
`0x`-prefixed 66-character digests, `createHash` maps EVERY string — the
empty string included — and every non-string (via its `String(data)`
coercion) to the digest of its UTF-8 encoding, and fails only on
`null`/`undefined`. -/
theorem C9_amended (keccak : List Nat → String)
    (hfmt : ∀ b, isValidDigest (keccak b) = true) :
    (∀ s, createHash keccak (JSInput.str s) = Except.ok (keccak (toUtf8Bytes s))) ∧
    (∀ s, createHash keccak (JSInput.other s) = Except.ok (keccak (toUtf8Bytes s))) ∧
    createHash keccak JSInput.nullish
      = Except.error "Cannot hash null or undefined data" := by
  refine ⟨?_, ?_, rfl⟩ <;> intro s <;> simp [createHash, hfmt]

/-- **C9, witness** for the amended theorem at a concrete keccak stand-in
and the string `"x"`. -/
theorem C9_amended_witness :
    createHash (fun _ => digest0) (JSInput.str "x") = Except.ok digest0 ∧
    createHash (fun _ => digest0) JSInput.nullish
      = Except.error "Cannot hash null or undefined data" :=
  ⟨(C9_amended (fun _ => digest0) (fun _ => digest0_valid)).1 "x",
   (C9_amended (fun _ => digest0) (fun _ => digest0_valid)).2.2⟩

/-! ## C10 — `encrypt` fallback path

Claim (implicit, from the code): whenever the AES-256-CBC path throws,
`encrypt` returns `{iv: "fallback", encryptedData: base64(plaintext)}` — the
plaintext reversibly encoded with no key — and `decrypt` recognises
`iv == "fallback"` and returns the base64-decoded plaintext, so a stored
record can contain PII recoverable without the encryption key. -/

/-- **C10.**  For every runtime instance and every plaintext on which the
AES path throws: `encrypt` returns the fallback record carrying the base64
of the plaintext; the plaintext is recoverable from the stored record by
base64-decoding alone (no key); and `decrypt` takes the `"fallback"` branch,
returning the base64-decoded plaintext (through the same `JSON.parse`
attempt every `decrypt` result goes through). -/
theorem C10_fallback (C : CipherRuntime) (B : Base64Runtime) (J : JsonRuntime)
    (k iv pt : String)
    (hthrow : C.enc (padKey k) iv pt = none) :
    encrypt C B k iv pt = { iv := "fallback", encryptedData := B.enc pt } ∧
    B.dec (encrypt C B k iv pt).encryptedData = pt ∧
    decrypt C B J k (encrypt C B k iv pt)
      = (match J.parse pt with
         | some v => v
         | none => JSValue.str pt) := by
  have henc : encrypt C B k iv pt = { iv := "fallback", encryptedData := B.enc pt } := by
    unfold encrypt
    rw [hthrow]
  refine ⟨henc, ?_, ?_⟩
  · rw [henc]
    exact B.dec_enc pt
  · rw [henc]
    simp [decrypt, B.dec_enc pt]

/-- **C10, witness** at the always-throwing cipher and plaintext `"hello"`
(which `JSON.parse` rejects, so the raw plaintext string comes back). -/
theorem C10_fallback_witness :
    encrypt cipherBroken base64Id "key" "00" "hello"
      = { iv := "fallback", encryptedData := "hello" } ∧
    decrypt cipherBroken base64Id jsonRuntime0 "key"
        (encrypt cipherBroken base64Id "key" "00" "hello")
      = JSValue.str "hello" := by
  have h := C10_fallback cipherBroken base64Id jsonRuntime0 "key" "00" "hello" rfl
  refine ⟨h.1, ?_⟩
  rw [h.2.2]
  decide

/-! ## Shared helper lemmas about `verifyQRCode` -/

/-- Characterisation of the accepting runs of `verifyQRCode`: a payload is
accepted exactly when all required fields are present, the `systemId` equals
the public constant, and `now ≤ expiresAt`. -/
theorem verifyQRCode_valid_iff (now : Nat) (q : QRData) :
    verifyQRCode now q = VerifyResult.valid ↔
      (requiredMissing q = false ∧ q.systemId = "MYVOTE_SYSTEM_V1" ∧
       now ≤ q.expiresAt) := by
  unfold verifyQRCode
  by_cases h1 : requiredMissing q <;> simp [h1]
  all_goals by_cases h2 : q.systemId = "MYVOTE_SYSTEM_V1" <;> simp [h2]

/-! ## C7 — expiry boundary

Claim: redemption succeeds only if `now < expiresAt`; a credential redeemed
at or after `expiresAt` fails with `Expired`.

The boundary fails on the code: the check at `part_011:172` is
`now > expiresAt`, so a redemption at exactly `expiresAt` is allowed
through. -/

/-- **C7, counterexample.**  A never-consumed credential redeemed at
exactly its `expiresAt` (time 1000) succeeds instead of failing with
`Expired`. -/
theorem C7_counterexample :
    qr0.expiresAt = 1000 ∧
    (processVoting 1000 [voter0] qr0).1 = VoteOutcome.success "0xabc" := by
  refine ⟨by decide, by decide⟩

/-- **C7, amended.**  Redemption succeeds only if `now ≤ expiresAt` (the
boundary instant is allowed), and a payload presented strictly after
`expiresAt` — whatever the consumption state — fails with
`"QR code has expired"` leaving the store untouched. -/
theorem C7_amended (now : Nat) (db : List VoterRec) (q : QRData) :
    (∀ a, (processVoting now db q).1 = VoteOutcome.success a →
       now ≤ q.expiresAt) ∧
    (requiredMissing q = false → q.systemId = "MYVOTE_SYSTEM_V1" →
       now > q.expiresAt →
       processVoting now db q = (VoteOutcome.failure "QR code has expired", db)) := by
  constructor
  · intro a h
    rcases hv : verifyQRCode now q with e | _
    · unfold processVoting at h
      rw [hv] at h
      cases h
    · exact ((verifyQRCode_valid_iff now q).mp hv).2.2
  · intro h1 h2 h3
    have hv : verifyQRCode now q = VerifyResult.invalid "QR code has expired" := by
      unfold verifyQRCode
      simp [h1, h2, h3]
    unfold processVoting
    rw [hv]

/-- **C7, witness** for the amended theorem: at time 2000 (strictly past
expiry 1000) the same payload fails with the expiry error and the store is
unchanged. -/
theorem C7_amended_witness :
    processVoting 2000 [voter0] qr0
      = (VoteOutcome.failure "QR code has expired", [voter0]) :=
  (C7_amended 2000 [voter0] qr0).2 (by decide) (by decide) (by decide)

/-! ## C2 — no signature verification on redemption

Claim: `redeem` verifies the issuer signature over the payload before any
state change, so a forged payload is rejected with `SignatureInvalid`.

This fails on the code: `verifyQRCode` (`part_011:147-190`) carries no
signature at all — it checks field presence, the PUBLIC constant
`systemId === 'MYVOTE_SYSTEM_V1'` and expiry, and nothing else, so any
well-formed payload assembled without any secret passes and can reach the
consumed-flag update in `processVoting`. -/

/-- **C2, counterexample.**  `qrForged` is built from public constants only
(its hashes match no issued credential, no issuer key exists anywhere in the
code): it passes `verifyQRCode`, and `processVoting` accepts it and flips
the voter consumed flag — a state change caused by an unsigned payload. -/
theorem C2_counterexample :
    verifyQRCode 0 qrForged = VerifyResult.valid ∧
    (processVoting 0 [voter0] qrForged).1 = VoteOutcome.success "0xabc" ∧
    (processVoting 0 [voter0] qrForged).2.map VoterRec.isVoted = [true] := by
  refine ⟨by decide, by decide, by decide⟩

/-- **C2, amended.**  Redemption performs no signature verification:
`verifyQRCode` accepts a payload exactly when its required fields are
present, its `systemId` equals the public constant `"MYVOTE_SYSTEM_V1"`,
and it is unexpired — acceptance depends on no secret and no signature. -/
theorem C2_amended (now : Nat) (q : QRData) :
    verifyQRCode now q = VerifyResult.valid ↔
      (requiredMissing q = false ∧ q.systemId = "MYVOTE_SYSTEM_V1" ∧
       now ≤ q.expiresAt) :=
  verifyQRCode_valid_iff now q

/-! ## C1 — concurrent redemption is not an atomic check-and-set

Claim: among N concurrent `redeem` calls with the same valid payload,
exactly one succeeds and the others observe `AlreadyConsumed`
(`"Voter has already voted"`), the consumed flag being mutated by a single
atomic check-and-set, never a separate read followed by a write.

The sequential behaviour is exactly one success; but the code reads
`voter.isVoted` from the document fetched by `findOne` (`part_011:211-228`)
and only later persists with `voter.save()` (`part_011:243`) — a separate
read followed by a write, with no conditional update or per-key lock.
Under the interleaving read₁·read₂·write₁·write₂ both requests observe
`isVoted == false` and both succeed. -/

/-- Faithfulness of the phase split: recombining the read phase and the
write phase against a single snapshot is exactly `processVoting`. -/
theorem redeemPhases_complete (now : Nat) (db : List VoterRec) (q : QRData) :
    redeemFromPhase now db (redeemReadPhase now db q) = processVoting now db q := by
  unfold redeemFromPhase redeemReadPhase processVoting redeemWritePhase
  cases hv : verifyQRCode now q
  · rfl
  · cases hf : findVerifiedVoter db q.voterAddress
    · rfl
    · rename_i voter
      by_cases h1 : voter.isVoted <;>
        by_cases h2 : (voter.qrCode.map StoredQR.isActive).getD false <;>
        simp [h1, h2]

/-- **C1.**  (i) The phase split is faithful to `processVoting`.
(ii) Sequentially, exactly one of two redemptions of the same valid payload
succeeds and the second observes `"Voter has already voted"` — the
behaviour the claim demands.  (iii) Under the interleaving
read₁·read₂·write₁·write₂ permitted by the read-then-write structure of the
code, BOTH redemptions succeed: the mutation is not an atomic
check-and-set, and N−1 failures are not guaranteed. -/
theorem C1_race :
    (∀ (now : Nat) (db : List VoterRec) (q : QRData),
       redeemFromPhase now db (redeemReadPhase now db q) = processVoting now db q) ∧
    (processVoting 0 [voter0] qr0).1 = VoteOutcome.success "0xabc" ∧
    (processVoting 0 (processVoting 0 [voter0] qr0).2 qr0).1
      = VoteOutcome.failure "Voter has already voted" ∧
    (twoInterleavedRedeems 0 [voter0] qr0).1 = VoteOutcome.success "0xabc" ∧
    (twoInterleavedRedeems 0 [voter0] qr0).2.1 = VoteOutcome.success "0xabc" := by
  refine ⟨redeemPhases_complete, by decide, by decide, by decide, by decide⟩

/-! ## C3 — re-verifying an already-verified voter is silently accepted

Claim: a second call to the verify operation returns `AlreadyVerified`,
leaves the verification state unchanged, and emits no additional ledger
transaction.

The contract level honours this (`VoterID.verifyVoter` reverts
`VoterAlreadyVerified`, `voterID.sol:104`), and the controller even carries
a dead `"Voter already verified"` → 409 handler (`part_003:293-295`).  But
the controller never reads `voter.isVerified`, and the revert of the
attempted on-chain transaction is swallowed by the inner catch at
`part_003:207-210`, so the second call answers 200
`"Voter verified successfully"` and overwrites `verificationDate`,
`verificationNotes` and `verifiedBy`. -/

/-- **C3.**  With voter `0xabc` already verified both off-chain
(`voter0.isVerified = true`) and on the ledger: the ledger rejects the
repeated verification (`VoterAlreadyVerified`), yet the controller returns
the success response and mutates the record — the second attempt is
silently accepted, not rejected with `AlreadyVerified`. -/
theorem C3_silent_reverify :
    voter0.isVerified = true ∧
    contractVerifyVoter "0xadmin" 7 chainSt0 "0xabc"
      = Except.error CError.VoterAlreadyVerified ∧
    (verifyVoterController startsWith0x "0xadmin" 200 [voter0]
        (ledgerVerifyOutcome "0xadmin" 7 chainSt0 "0xabc")
        "0xadmin" "0xabc" "second pass").1 = VerifyResp.verified ∧
    (verifyVoterController startsWith0x "0xadmin" 200 [voter0]
        (ledgerVerifyOutcome "0xadmin" 7 chainSt0 "0xabc")
        "0xadmin" "0xabc" "second pass").2
      = [{ voter0 with verificationDate := some 200,
                       verificationNotes := "second pass",
                       verifiedBy := some "0xadmin" }] := by
  refine ⟨by decide, by rfl, by decide, by decide⟩

/-! ## C4 — duplicate registration across the two stores

Claim: a second registration with the same aadhar fails with
`AlreadyRegistered` regardless of which store already holds the record, and
the uniqueness check precedes any write.

The off-chain half holds: the MongoDB lookup precedes every write and a hit
returns 400 with nothing written.  The cross-store half fails: when only
the ledger holds the matching record, the contract revert
(`AadharAlreadyRegistered`) is swallowed by the catch at
`part_003:108-111` and the registration succeeds off-chain-only with a 201
response. -/

/-- **C4, counterexample.**  Chain state `chainSt0` already holds aadhar
hash `0xa`; the off-chain store is empty.  Registering the same aadhar:
the ledger call reverts `AadharAlreadyRegistered`, the controller swallows
it and answers 201 `created` (`onBlockchain = false`) — not
`AlreadyRegistered`. -/
theorem C4_counterexample :
    registerVoterByAdmin "0xadmin" 7 chainSt0 addr42 "0xn2" "0xa"
      = Except.error CError.AadharAlreadyRegistered ∧
    ledgerRegisterOutcome "0xadmin" 7 chainSt0 addr42 "0xn2" "0xa"
      = Except.error "execution reverted" ∧
    (registerVoter true (fun _ => digest0)
        (ledgerRegisterOutcome "0xadmin" 7 chainSt0 addr42 "0xn2" "0xa") 7 []
        "Asha" "111122223333" addr42).1 = RegisterResp.created false := by
  refine ⟨by rfl, by rfl, by decide⟩

/-- **C4, amended.**  (i) A duplicate visible in the OFF-CHAIN store (same
address or same aadhar) is rejected with `AlreadyRegistered` before any
write — the store is returned unchanged.  (ii) A duplicate visible only on
the ledger is NOT rejected: the thrown ledger call is swallowed and the
registration succeeds with `created (onBlockchain = false)`. -/
theorem C4_amended :
    (∀ (keccak : List Nat → String) (ledger : Except String String)
       (now : Nat) (db : List VoterRec) (name aadhar addr : String)
       (v : VoterRec),
       (∀ b, isValidDigest (keccak b) = true) →
       name.isEmpty = false → aadhar.isEmpty = false →
       startsWith0x addr = true → addr.length = 42 →
       v ∈ db → (v.blockchainAddress = addr ∨ v.rawAadhar = aadhar) →
       registerVoter true keccak ledger now db name aadhar addr
         = (RegisterResp.alreadyRegistered, db)) ∧
    (∀ (keccak : List Nat → String) (msg : String)
       (now : Nat) (db : List VoterRec) (name aadhar addr : String),
       (∀ b, isValidDigest (keccak b) = true) →
       name.isEmpty = false → aadhar.isEmpty = false →
       startsWith0x addr = true → addr.length = 42 →
       db.find? (fun v => v.blockchainAddress == addr || v.rawAadhar == aadhar)
         = none →
       (registerVoter true keccak (Except.error msg) now db name aadhar addr).1
         = RegisterResp.created false) := by
  constructor
  · intro keccak ledger now db name aadhar addr v hfmt hname haad haddr hlen hmem hdup
    have haddrne : addr.isEmpty = false := by
      rw [Bool.eq_false_iff]
      intro h
      rw [String.isEmpty_iff] at h
      subst h
      simp [String.length] at hlen
    have hfind : (db.find?
        (fun v => v.blockchainAddress == addr || v.rawAadhar == aadhar)).isSome := by
      rw [List.find?_isSome]
      refine ⟨v, hmem, ?_⟩
      rcases hdup with h | h <;> simp [h]
    obtain ⟨w, hw⟩ := Option.isSome_iff_exists.mp hfind
    unfold registerVoter
    simp [hname, haad, haddr, haddrne, hlen, createHash, hfmt, hw]
  · intro keccak msg now db name aadhar addr hfmt hname haad haddr hlen hnodup
    have haddrne : addr.isEmpty = false := by
      rw [Bool.eq_false_iff]
      intro h
      rw [String.isEmpty_iff] at h
      subst h
      simp [String.length] at hlen
    unfold registerVoter
    simp [hname, haad, haddr, haddrne, hlen, createHash, hfmt, hnodup,
          Except.toOption]

/-- **C4, witness** for the amended theorem: part (i) at a concrete store
already holding the aadhar `111122223333`. -/
theorem C4_amended_witness :
    registerVoter true (fun _ => digest0) (Except.ok "0xtx") 7 [voter0]
        "Asha" "111122223333" addr42
      = (RegisterResp.alreadyRegistered, [voter0]) :=
  C4_amended.1 (fun _ => digest0) (Except.ok "0xtx") 7 [voter0]
    "Asha" "111122223333" addr42 voter0
    (fun _ => digest0_valid) (by decide) (by decide) (by decide) (by decide)
    (by decide) (Or.inr (by decide))

/-! ## C5 — ledger failure degrades to off-chain-only registration

Claim: when the ledger submission fails, registration does not abort: the
off-chain record is still created, its ledger reference (the `blockchain`
subdocument, `part_003:140-145`) is `null`, and the response is a success
with `onBlockchain: false`. -/

/-- **C5.**  For every otherwise-valid registration whose ledger call threw
(`Except.error msg`): the controller answers 201 `created` with
`onBlockchain = false`, appends the off-chain record, and that record
carries `blockchain = none` — the observable null marker. -/
theorem C5_ledger_failure_degrades (keccak : List Nat → String)
    (msg : String) (now : Nat) (db : List VoterRec) (name aadhar addr : String)
    (hfmt : ∀ b, isValidDigest (keccak b) = true)
    (hname : name.isEmpty = false) (haad : aadhar.isEmpty = false)
    (haddr : startsWith0x addr = true) (hlen : addr.length = 42)
    (hnodup : db.find?
        (fun v => v.blockchainAddress == addr || v.rawAadhar == aadhar) = none) :
    registerVoter true keccak (Except.error msg) now db name aadhar addr
      = (RegisterResp.created false,
         db ++ [{ blockchainAddress := addr, rawName := name, rawAadhar := aadhar,
                  blockchain := none, isVerified := false, isVoted := false,
                  votingDate := none, qrCode := none, verificationDate := none,
                  verificationNotes := "", verifiedBy := none }]) := by
  have haddrne : addr.isEmpty = false := by
    rw [Bool.eq_false_iff]
    intro h
    rw [String.isEmpty_iff] at h
    subst h
    simp [String.length] at hlen
  unfold registerVoter
  simp [hname, haad, haddr, haddrne, hlen, createHash, hfmt, hnodup,
        Except.toOption]

/-- **C5, witness**: a concrete registration against an empty store with
the ledger down. -/
theorem C5_witness :
    registerVoter true (fun _ => digest0) (Except.error "ledger down") 7 []
        "Asha" "111122223333" addr42
      = (RegisterResp.created false,
         [{ blockchainAddress := addr42, rawName := "Asha",
            rawAadhar := "111122223333", blockchain := none,
            isVerified := false, isVoted := false, votingDate := none,
            qrCode := none, verificationDate := none, verificationNotes := "",
            verifiedBy := none }]) :=
  C5_ledger_failure_degrades (fun _ => digest0) "ledger down" 7 []
    "Asha" "111122223333" addr42 (fun _ => digest0_valid)
    (by decide) (by decide) (by decide) (by decide) rfl

/-! ## C8 — issuing over a live credential

Claim: `issue` (`generateVotingQR`) has as precondition that no
currently-live (non-expired, unconsumed) credential exists for the voter, so
a second issue while one is live must fail or explicitly supersede it under
a single documented policy.

This fails on the code: `generateVotingQR` (`part_003:707-764`) checks
only existence, `isVerified` and `!isVoted`; it never inspects the existing
`qrCode`, and silently overwrites whatever credential is stored — while
different call sites (`verifyVoter`, `verifyVoterByAadhar`) also write
`qrCode` without the expiry fields, so no single policy exists. -/

/-- **C8, counterexample.**  `voter0` holds a live credential (active,
expires at 1000) at time 100; a second issue succeeds (no failure) and
replaces the stored credential with the fresh one. -/
theorem C8_counterexample :
    (generateVotingQR true 100 30 [voter0] "111122223333").1
      = GenQRResp.generated 1800100 ∧
    (generateVotingQR true 100 30 [voter0] "111122223333").2
      = [{ voter0 with
           qrCode := some ({ nameHash := "0xn", aadharHash := "0xa",
                             txHash := "0xt", generatedAt := 100,
                             expiresAt := some 1800100,
                             isActive := true } : StoredQR) }] := by
  refine ⟨by decide, by decide⟩

/-- **C8, amended.**  `generateVotingQR` checks only that the voter exists,
is verified and has not voted; its outcome and the freshly written
credential are the same whatever credential is currently stored — an
existing live credential never causes a failure, it is silently
overwritten. -/
theorem C8_amended (now mins : Nat) (db : List VoterRec) (aadhar : String)
    (voter : VoterRec) (bc : BlockchainSub)
    (hfind : db.find? (fun v => v.rawAadhar == aadhar) = some voter)
    (hver : voter.isVerified = true) (hvoted : voter.isVoted = false)
    (hbc : voter.blockchain = some bc)
    (hn : bc.nameHash.isEmpty = false) (ha : bc.aadharHash.isEmpty = false) :
    generateVotingQR true now mins db aadhar
      = (GenQRResp.generated (now + mins * 60 * 1000),
         saveVoter db voter.blockchainAddress (fun v =>
           { v with
             qrCode := some ({ nameHash := bc.nameHash,
                               aadharHash := bc.aadharHash,
                               txHash := bc.txHash.getD "voting_qr",
                               generatedAt := now,
                               expiresAt := some (now + mins * 60 * 1000),
                               isActive := true } : StoredQR) })) := by
  unfold generateVotingQR
  rw [hfind]
  simp [hver, hvoted, hbc, hn, ha]

/-- **C8, witness** for the amended theorem at `voter0`, which holds a live
credential at issue time 200. -/
theorem C8_amended_witness :
    generateVotingQR true 200 30 [voter0] "111122223333"
      = (GenQRResp.generated 1800200,
         saveVoter [voter0] "0xabc" (fun v =>
           { v with
             qrCode := some ({ nameHash := "0xn", aadharHash := "0xa",
                               txHash := "0xt", generatedAt := 200,
                               expiresAt := some 1800200,
                               isActive := true } : StoredQR) })) := by
  have h := C8_amended 200 30 [voter0] "111122223333" voter0
    { nameHash := "0xn", aadharHash := "0xa", txHash := some "0xt",
      registrationTimestamp := 1 }
    (by decide) (by decide) (by decide) (by decide) (by decide) (by decide)
  exact h

end MyVote
